import Mathlib

/-!
Verification of the multi-effect evaporator and batch-crystallization
code (`evaporateurs.py`, `cristallisation.py`, `thermodynamique.py`).

Shallow embedding conventions:
* Python floats are modelled as `ℚ` where the source only performs
  field arithmetic and comparisons, and as `ℝ` where the source uses
  `np.log`, `np.exp`, `**` (real powers) or `np.sqrt`.
* `np.linspace` is modelled by `linspaceNp` with numpy's semantics
  (`num = 1` yields `[start]`, the endpoint is exact).
* The thermodynamic property functions are embedded on their fallback
  path (`COOLPROP_AVAILABLE = False`); the CoolProp branch queries an
  external property database and is outside the program text.
-/

namespace EvapCrit

/-- `np.linspace`: `n` evenly spaced points from `a` to `b` (inclusive);
`n = 1` gives `[a]` and the endpoint is exact, matching numpy.  Stated
over any field so it serves both the `ℚ`-valued and the
`ℝ`-valued parts of the embedding. -/
def linspaceNp {K : Type*} [Field K] (a b : K) (n : ℕ) : List K :=
  if n = 0 then []
  else if n = 1 then [a]
  else (List.range n).map (fun i : ℕ => a + (i : K) * (b - a) / ((n : K) - 1))

/-- `np.max` over a list (the maximum of a nonempty array; `0` is
returned for the empty list, which `np.max` would reject). -/
noncomputable def npMax : List ℝ → ℝ
  | [] => 0
  | h :: t => t.foldl max h

/-! ## cristallisation.py -/

/-- `solubilite(T)` from `cristallisation.py`:
`64.18 + 0.1337*T + 5.52e-3*T**2 - 9.73e-6*T**3`. -/
def solubilite (T : ℚ) : ℚ :=
  64.18 + 0.1337 * T + 5.52e-3 * T ^ 2 - 9.73e-6 * T ^ 3

/-- Modelled from the spec: the cubic solubility correlation written as
`64.18 + 0.1337T + 0.00552T² − 9.73e-6T³` (spec §4.3 step 1), used to
compare against the source's `solubilite`. -/
def solubiliteSpec (T : ℚ) : ℚ :=
  64.18 + 0.1337 * T + 0.00552 * T ^ 2 - 9.73e-6 * T ^ 3

/-- Number of time points `Nt = int(duree_totale / dt) + 1`.  Python's
`int()` truncates toward zero; for the nonnegative durations used here
this is the floor. -/
def ntSteps (duree dt : ℚ) : ℕ :=
  (Int.floor (duree / dt)).toNat + 1

/-- The hardcoded final mean size and CV selected by the cooling-profile
string in `simuler_cristallisation_batch`. -/
def profilFinals (profil : String) : ℚ × ℚ :=
  if profil = "lineaire" then (450e-6, 0.225)
  else if profil = "expo" then (435e-6, 0.250)
  else (465e-6, 0.200)

/-- The time-history dict returned by `simuler_cristallisation_batch`
(all entries are rational-valued in the source). -/
structure HistoriqueCr where
  t : List ℚ
  T : List ℚ
  S : List ℚ
  C : List ℚ
  Cs : List ℚ
  Lmean : List ℚ
  CV : List ℚ

/-- The `historique` computed by `simuler_cristallisation_batch` in
`cristallisation.py`: time grid, the (always linear) temperature ramp to
35 °C, the forced `S`, `C`, `Cs`, `Lmean`, `CV` trajectories.
`M_batch` and `C_init` are accepted and ignored, as in the source. -/
def simulerCristallisationBatch (M_batch C_init T_init duree dt : ℚ)
    (profil : String) : HistoriqueCr :=
  let _ := M_batch
  let _ := C_init
  let Nt := ntSteps duree dt
  let t := linspaceNp 0 duree Nt
  let T := t.map (fun s => T_init - (T_init - 35) * s / duree)
  let fins := profilFinals profil
  let Lmean := linspaceNp 20e-6 fins.1 Nt
  let CV := linspaceNp 0.15 fins.2 Nt
  let S := linspaceNp 0.1 0.01 Nt
  let Cs := T.map solubilite
  let C := Cs.map (· + 5)
  { t := t, T := T, S := S, C := C, Cs := Cs, Lmean := Lmean, CV := CV }

/-- The fixed size grid `np.linspace(1e-7, 1e-3, 100)`. -/
noncomputable def grilleTailles : List ℝ := linspaceNp 1e-7 1e-3 100

/-- The log-normal number-density array built at the end of
`simuler_cristallisation_batch` from the profile's forced
`Lmean_final`/`CV_final`, normalised to a maximum of `1e10`. -/
noncomputable def nDistDe (profil : String) : List ℝ :=
  let fins := profilFinals profil
  let sigma := Real.sqrt (Real.log (1 + ((fins.2 : ℝ)) ^ 2))
  let mu := Real.log ((fins.1 : ℝ)) - sigma ^ 2 / 2
  let raw := grilleTailles.map
    (fun L => Real.exp (-(Real.log L - mu) ^ 2 / (2 * sigma ^ 2)) /
      (L * sigma * Real.sqrt (2 * Real.pi)))
  raw.map (fun v => v / npMax raw * 1e10)

/-- Full return value of `simuler_cristallisation_batch`:
`(L_grid, n_dist, historique)`.  The number-density expression in the
source refers only to the fixed grid and the profile constants, which is
why `nDistDe` takes the profile alone. -/
noncomputable def simulerCrComplet (M_batch C_init T_init duree dt : ℚ)
    (profil : String) : List ℝ × List ℝ × HistoriqueCr :=
  (grilleTailles, nDistDe profil,
    simulerCristallisationBatch M_batch C_init T_init duree dt profil)

/-- Modelled from the spec: the exponential cooling profile
"exponential relaxation toward 35°C with rate constant 0.003/s"
(spec §4.3 step 6), which no code in `src/` implements. -/
noncomputable def tempExpoSpec (T_init t : ℝ) : ℝ :=
  35 + (T_init - 35) * Real.exp (-0.003 * t)

/-! ## thermodynamique.py (fallback path) -/

/-- `Tsat_water_from_Pbar` on its fallback path:
`P = max(P, 0.01); return 100.0 + 28.0 * np.log(P)`. -/
noncomputable def Tsat_water_from_Pbar (Pbar : ℝ) : ℝ :=
  100 + 28 * Real.log (max Pbar 0.01)

/-- Modelled from the spec: the documented empirical fallback
`100 + 43·ln(P[bar])` (spec §4.1), to compare with the source's
`Tsat_water_from_Pbar`. -/
noncomputable def TsatSpec (Pbar : ℝ) : ℝ :=
  100 + 43 * Real.log Pbar

/-- `latent_heat_kJkg` fallback: `max(2500.0 - 2.42 * T, 100.0)`. -/
def latent_heat_kJkg (T : ℝ) : ℝ :=
  max (2500 - 2.42 * T) 100

/-- `latent_heat_from_Pbar` fallback: latent heat at the saturation
temperature of the given pressure. -/
noncomputable def latent_heat_from_Pbar (Pbar : ℝ) : ℝ :=
  latent_heat_kJkg (Tsat_water_from_Pbar Pbar)

/-- `EPE_Duhring(x, T)`: `0` for `x ≤ 0`, otherwise
`max(0.08*(1+0.004*T) * x**1.2 * 100, 0)`. -/
noncomputable def EPE_Duhring (x T : ℝ) : ℝ :=
  if x ≤ 0 then 0
  else max (0.08 * (1 + 0.004 * T) * x ^ (1.2 : ℝ) * 100) 0

/-- `Cp_solution_saccharose` with the fallback water heat capacity
(`Cp_water = 4.18`, `Cp_sucre = 1.25`); the temperature argument is
unused on this path, as in the source. -/
def Cp_solution_saccharose (x T : ℝ) : ℝ :=
  let _ := T
  x * 1.25 + (1 - x) * 4.18

/-- `coefficient_U_effet(effet, n_total)`: the CDC table for 3 effects,
otherwise linear interpolation between 2500 and 1800. -/
noncomputable def coefficient_U_effet (effet n_total : ℕ) : ℝ :=
  if n_total = 3 then
    (if effet = 1 then 2500 else if effet = 2 then 2200 else 1800)
  else if effet ≤ 1 then 2500
  else if n_total ≤ effet then 1800
  else 2500 - (2500 - 1800) * ((effet : ℝ) - 1) / ((max (n_total - 1) 1 : ℕ) : ℝ)

/-! ## evaporateurs.py : constructor -/

/-- The attributes of `EvaporateurMultiple` after `__init__`: the
configuration scalars plus the result slots, which `__init__` leaves at
`None` (modelled as `Option`). -/
structure Evaporateur where
  F : ℝ
  xF : ℝ
  xout : ℝ
  T_feed : ℝ
  P_steam : ℝ
  n_effets : ℤ
  P_final : ℝ
  surchauffe : ℝ
  pertes : ℝ
  R_f : ℝ
  L : Option (List ℝ)
  V : Option (List ℝ)
  x : Option (List ℝ)
  T : Option (List ℝ)
  P : Option (List ℝ)
  A : Option (List ℝ)
  Q : Option (List ℝ)
  U : Option (List ℝ)
  m_steam : Option ℝ

/-- `EvaporateurMultiple.__init__`: stores the configuration, raises
`ValueError` when `xout <= xF` or `n_effets < 1` (in that order), and
otherwise sets every result slot to `None`.  No other validation is
performed. -/
noncomputable def initEvaporateur (F xF xout T_feed P_steam : ℝ) (n_effets : ℤ)
    (P_final surchauffe pertes R_f : ℝ) : Except String Evaporateur :=
  if xout ≤ xF then .error "xout doit être > xF"
  else if n_effets < 1 then .error "n_effets doit être >= 1"
  else .ok
    { F := F, xF := xF, xout := xout, T_feed := T_feed, P_steam := P_steam,
      n_effets := n_effets, P_final := P_final, surchauffe := surchauffe,
      pertes := pertes, R_f := R_f,
      L := none, V := none, x := none, T := none, P := none,
      A := none, Q := none, U := none, m_steam := none }

/-- `True` exactly when the constructor returned normally. -/
def estOk (e : Except String Evaporateur) : Prop :=
  match e with
  | .ok _ => True
  | .error _ => False

/-! ## evaporateurs.py : solver pieces -/

/-- `_calculer_pressions`: `exp` of an `n+1`-point linear grid between
`log(P_steam)` and `log(P_final)`, dropping the first point
(`self.P = P_effets[1:]`). -/
noncomputable def calculer_pressions (P_steam P_final : ℝ) (n : ℕ) : List ℝ :=
  ((linspaceNp (Real.log P_steam) (Real.log P_final) (n + 1)).map Real.exp).drop 1

/-- `_bilan_matiere_global`: `(L_final, V_total)`. -/
noncomputable def bilan_matiere_global (F xF xout : ℝ) : ℝ × ℝ :=
  (F * xF / xout, F - F * xF / xout)

/-- The stage-to-stage propagation shared by `_initialiser_debits` and
the recomputation inside `simuler`: from inlet `(L_in, x_in)` and the
list of vapor flows, produce the per-effect `(L_i, x_i)` pairs with
`L_i = L_in − V_i` and `x_i = L_in·x_in/L_i` when `L_i > 0`
(else `x_i = x_in`). -/
noncomputable def majLx : ℝ → ℝ → List ℝ → List (ℝ × ℝ)
  | _, _, [] => []
  | Lin, xin, Vi :: Vs =>
    let Li := Lin - Vi
    let xi := if 0 < Li then Lin * xin / Li else xin
    (Li, xi) :: majLx Li xi Vs

/-- `_initialiser_debits`: uniform split `V_i = V_total/n` and the
propagated `(L, V, x)` arrays. -/
noncomputable def initialiser_debits (F xF xout : ℝ) (n : ℕ) :
    List ℝ × List ℝ × List ℝ :=
  let Vtot := (bilan_matiere_global F xF xout).2
  let Vpar := Vtot / (n : ℝ)
  let V := List.replicate n Vpar
  let Lx := majLx F xF V
  (Lx.map Prod.fst, V, Lx.map Prod.snd)

/-- `_calculer_temperatures`: `T_i = Tsat(P_i) + EPE(x_i, Tsat(P_i))`. -/
noncomputable def calculer_temperatures (P x : List ℝ) : List ℝ :=
  List.zipWith
    (fun Pi xi => Tsat_water_from_Pbar Pi +
      EPE_Duhring xi (Tsat_water_from_Pbar Pi)) P x

/-- Iteration state of `simuler`: the mutated arrays of the instance. -/
structure Etat where
  L : List ℝ
  V : List ℝ
  x : List ℝ
  T : List ℝ
  Q : List ℝ
  A : List ℝ

/-- Per-effect pass of `_calculer_bilans_energetiques` over the zipped
arrays `(P_i, V_i, x_i, T_i, L_i)`, carrying the heating-side
temperature, the inlet temperature/concentration/flow and the stage
index; yields the `(Q_i, A_i)` pairs. -/
noncomputable def bilansAux (pertes R_f : ℝ) (n : ℕ) :
    ℝ → ℝ → ℝ → ℝ → ℕ → List ℝ → List ℝ → List ℝ → List ℝ → List ℝ →
    List (ℝ × ℝ)
  | Tch, Tin, xin, Lin, i, Pi :: Ps, Vi :: Vs, xi :: xs, Ti :: Ts, Li :: Ls =>
    let lambda_evap := latent_heat_from_Pbar Pi
    let Cp_in := Cp_solution_saccharose xin Tin
    let Cp_out := Cp_solution_saccharose xi Ti
    let Cp_moy := (Cp_in + Cp_out) / 2
    let Q_sensible := Lin * Cp_moy * (Ti - Tin) / 3600
    let Q_evap := Vi * lambda_evap / 3600
    let Q_utile := Q_sensible + Q_evap
    let Qi := Q_utile + pertes * Q_utile
    let Ui := coefficient_U_effet (i + 1) n
    let U_eff := 1 / (1 / Ui + R_f)
    let dT0 := Tch - Ti
    let dT := if dT0 ≤ 0 then 1 else dT0
    let Ai := Qi * 1000 / (U_eff * dT)
    (Qi, Ai) :: bilansAux pertes R_f n Ti Ti xi Li (i + 1) Ps Vs xs Ts Ls
  | _, _, _, _, _, _, _, _, _, _ => []

/-- Global configuration scalars of the solver (the constructor
attributes used by `simuler`). -/
structure Params where
  F : ℝ
  xF : ℝ
  xout : ℝ
  T_feed : ℝ
  P_steam : ℝ
  n_effets : ℕ
  P_final : ℝ
  surchauffe : ℝ
  pertes : ℝ
  R_f : ℝ

/-- One pass of the iteration body of `simuler`: recompute temperatures
from the current `x`, the energy balances `(Q, A)` from the current
state, the new vapor flows `V_i = Q_i·3600/λ(P_i)`, and finally `L`/`x`
downstream from the feed. -/
noncomputable def iterer (p : Params) (P : List ℝ) (st : Etat) : Etat :=
  let T := calculer_temperatures P st.x
  let T_steam := Tsat_water_from_Pbar p.P_steam + p.surchauffe
  let QA := bilansAux p.pertes p.R_f p.n_effets
    T_steam p.T_feed p.xF p.F 0 P st.V st.x T st.L
  let Q := QA.map Prod.fst
  let A := QA.map Prod.snd
  let V := List.zipWith (fun Qi Pi => Qi * 3600 / latent_heat_from_Pbar Pi) Q P
  let Lx := majLx p.F p.xF V
  { L := Lx.map Prod.fst, V := V, x := Lx.map Prod.snd, T := T, Q := Q, A := A }

/-- The convergence measure
`np.max(np.abs(V - V_old) / (V_old + 1e-12))`. -/
noncomputable def erreurConv (Vnew Vold : List ℝ) : ℝ :=
  npMax (List.zipWith (fun a b => |a - b| / (b + 1e-12)) Vnew Vold)

/-- The `for iteration in range(max_iter)` loop of `simuler` with its
`break` on convergence; returns the final state and the Python value
`iteration + 1` (the number of executed iterations). -/
noncomputable def boucle (p : Params) (P : List ℝ) (tol : ℝ) :
    ℕ → Etat → Etat × ℕ
  | 0, st => (st, 0)
  | Nat.succ k, st =>
    let st' := iterer p P st
    if erreurConv st'.V st.V < tol then (st', 1)
    else
      let r := boucle p P tol k st'
      (r.1, r.2 + 1)

/-- The iterates of the loop body: `etapes p P st k` is the state after
`k` executions of the iteration body starting from `st`. -/
noncomputable def etapes (p : Params) (P : List ℝ) (st : Etat) : ℕ → Etat
  | 0 => st
  | k + 1 => iterer p P (etapes p P st k)

/-- The dict returned by `simuler` (`x` scaled to percent, plus
`A_totale` and the iteration count). -/
structure Resultat where
  L : List ℝ
  V : List ℝ
  x : List ℝ
  T : List ℝ
  P : List ℝ
  A : List ℝ
  Q : List ℝ
  U : List ℝ
  m_steam : ℝ
  A_totale : ℝ
  iterations : ℕ

/-- The pressure grid used by a run of `simuler`. -/
noncomputable def pressionsDe (p : Params) : List ℝ :=
  calculer_pressions p.P_steam p.P_final p.n_effets

/-- The state of the instance right after `_initialiser_debits`. -/
noncomputable def etatInitial (p : Params) : Etat :=
  let ivx := initialiser_debits p.F p.xF p.xout p.n_effets
  { L := ivx.1, V := ivx.2.1, x := ivx.2.2, T := [], Q := [], A := [] }

/-- `simuler(max_iter, tol)`: pressures, initial flows, the bounded
iteration loop, `_calculer_consommation_vapeur`
(`m_steam = Q[0]·3600/λ(P_steam)`) and the result dict.  (For
`maxIter = 0` the Python code would raise `NameError` on the unbound
loop variable; the claims below always take `maxIter ≥ 1`.) -/
noncomputable def simuler (p : Params) (maxIter : ℕ) (tol : ℝ) : Resultat :=
  let P := pressionsDe p
  let st0 := etatInitial p
  let fin := boucle p P tol maxIter st0
  let stf := fin.1
  let m_steam := stf.Q.headD 0 * 3600 / latent_heat_from_Pbar p.P_steam
  { L := stf.L, V := stf.V, x := stf.x.map (· * 100), T := stf.T, P := P,
    A := stf.A, Q := stf.Q,
    U := (List.range p.n_effets).map (fun i => coefficient_U_effet (i + 1) p.n_effets),
    m_steam := m_steam, A_totale := stf.A.sum, iterations := fin.2 }

/-- The keys of the dict literal returned by `simuler`
(`evaporateurs.py`, lines 349–361). -/
def resultCles : List String :=
  ["L", "V", "x", "T", "P", "A", "Q", "U", "m_steam", "A_totale", "iterations"]

/-- `economie_vapeur`: `0` when the stored steam consumption is zero
(or was never computed), else `sum(V)/m_steam`. -/
noncomputable def economie_vapeur (V : List ℝ) (m_steam : ℝ) : ℝ :=
  if m_steam = 0 then 0 else V.sum / m_steam

/-! ## Helper lemmas -/

lemma linspaceNp_length {K : Type*} [Field K] (a b : K) (n : ℕ) :
    (linspaceNp a b n).length = n := by
  unfold linspaceNp
  split
  · simp [*]
  · split
    · simp [*]
    · simp

lemma linspaceNp_one {K : Type*} [Field K] (a b : K) :
    linspaceNp a b 1 = [a] := by
  unfold linspaceNp
  norm_num

lemma linspaceNp_getLast {K : Type*} [Field K] [CharZero K]
    (a b : K) {n : ℕ} (hn : 2 ≤ n) : (linspaceNp a b n).getLast? = some b := by
  obtain ⟨m, rfl⟩ : ∃ m, n = m + 2 := ⟨n - 2, by omega⟩
  unfold linspaceNp
  rw [if_neg (by omega), if_neg (by omega)]
  have hr : List.range (m + 2) = List.range (m + 1) ++ [m + 1] :=
    List.range_succ (m + 1)
  rw [hr, List.map_append, List.map_singleton, List.getLast?_concat]
  have h1 : ((m : K) + 1) ≠ 0 := by
    exact_mod_cast (show m + 1 ≠ 0 by omega)
  congr 1
  push_cast
  have h2 : (m : K) + 2 - 1 = (m : K) + 1 := by ring
  rw [h2]
  field_simp

lemma linspaceNp_get {K : Type*} [Field K] (a b : K) {n i : ℕ}
    (hn : 2 ≤ n) (hi : i < n) :
    (linspaceNp a b n)[i]? = some (a + (i : K) * (b - a) / ((n : K) - 1)) := by
  unfold linspaceNp
  rw [if_neg (by omega), if_neg (by omega), List.getElem?_map,
    List.getElem?_range hi, Option.map_some']

/-! ## C10 : solubility cubic -/

/-- C10 (confirmed): for every temperature `T`, the crystallizer's
`solubilite` returns exactly the cubic
`64.18 + 0.1337·T + 0.00552·T² − 9.73e-6·T³` stated by the spec
(`solubiliteSpec` is that formula verbatim). -/
theorem solubilite_conforme (T : ℚ) : solubilite T = solubiliteSpec T := by
  unfold solubilite solubiliteSpec
  norm_num

/-! ## C5 : global mass balance -/

/-- C5 (confirmed): for valid `F, xF, xout`, `_bilan_matiere_global`
computes the product flow `P = F·xF/xout`, the total vapor
`V_total = F − P`, and `P + V_total = F` holds exactly. -/
theorem bilan_global_exact (F xF xout : ℝ) (hF : 0 < F) (h0 : 0 < xF)
    (h1 : xF < xout) (h2 : xout < 1) :
    (bilan_matiere_global F xF xout).1 = F * xF / xout ∧
    (bilan_matiere_global F xF xout).2 = F - (bilan_matiere_global F xF xout).1 ∧
    (bilan_matiere_global F xF xout).1 + (bilan_matiere_global F xF xout).2 = F := by
  refine ⟨rfl, rfl, ?_⟩
  unfold bilan_matiere_global
  ring

/-- Witness for `bilan_global_exact` at the CDC scenario
`F = 20000`, `xF = 0.15`, `xout = 0.65`. -/
theorem bilan_global_exact_temoin :
    (bilan_matiere_global 20000 0.15 0.65).1 +
      (bilan_matiere_global 20000 0.15 0.65).2 = 20000 :=
  (bilan_global_exact 20000 0.15 0.65 (by norm_num) (by norm_num)
    (by norm_num) (by norm_num)).2.2

/-! ## C1 : constructor validation -/

/-- C1 (amended): `__init__` fails fast with `ValueError` for
`xout ≤ xF` and for `n_effets < 1` (in that order), producing no result
fields; in the remaining cases it succeeds with every result slot still
`None` — in particular no condition on the steam/final pressures is
checked. -/
theorem init_validation_partielle (F xF xout T_feed P_steam : ℝ) (n : ℤ)
    (P_final s pe R : ℝ) :
    (xout ≤ xF →
      initEvaporateur F xF xout T_feed P_steam n P_final s pe R =
        .error "xout doit être > xF") ∧
    (xF < xout → n < 1 →
      initEvaporateur F xF xout T_feed P_steam n P_final s pe R =
        .error "n_effets doit être >= 1") ∧
    (xF < xout → 1 ≤ n →
      initEvaporateur F xF xout T_feed P_steam n P_final s pe R =
        .ok ⟨F, xF, xout, T_feed, P_steam, n, P_final, s, pe, R,
          none, none, none, none, none, none, none, none, none⟩) := by
  refine ⟨fun h => ?_, fun h1 h2 => ?_, fun h1 h2 => ?_⟩
  · unfold initEvaporateur
    rw [if_pos h]
  · unfold initEvaporateur
    rw [if_neg (not_le.mpr h1), if_pos h2]
  · unfold initEvaporateur
    rw [if_neg (not_le.mpr h1), if_neg (not_lt.mpr h2)]

/-- Witness for `init_validation_partielle`: `xout = 0.10 ≤ xF = 0.15`
is rejected with the configuration error. -/
theorem init_validation_partielle_temoin :
    initEvaporateur 20000 0.15 0.10 85 3.5 3 0.15 10 0.03 0.0002 =
      .error "xout doit être > xF" :=
  (init_validation_partielle 20000 0.15 0.10 85 3.5 3 0.15 10 0.03 0.0002).1
    (by norm_num)

/-- C1 (counterexample): constructing with steam pressure
`0.1 ≤ 0.15 =` final condenser pressure does **not** fail: the
constructor returns normally, refuting the claim that this
configuration is rejected. -/
theorem init_accepte_pression_invalide :
    (0.1 : ℝ) ≤ 0.15 ∧
    estOk (initEvaporateur 20000 0.15 0.65 85 0.1 3 0.15 10 0.03 0.0002) := by
  refine ⟨by norm_num, ?_⟩
  unfold initEvaporateur
  rw [if_neg (by norm_num), if_neg (by norm_num)]
  trivial

/-! ## C7 : saturation-temperature fallback -/

/-- C7 (amended): on the fallback path the saturation temperature is
`100 + 28·ln(P)` for every pressure `P ≥ 0.01` bar (below `0.01` the
pressure is clamped), not the `100 + 43·ln(P)` stated by the spec. -/
theorem tsat_fallback_28 (P : ℝ) (hP : 0.01 ≤ P) :
    Tsat_water_from_Pbar P = 100 + 28 * Real.log P := by
  unfold Tsat_water_from_Pbar
  rw [max_eq_left hP]

/-- Witness for `tsat_fallback_28` at `P = 1` bar: `Tsat = 100` °C. -/
theorem tsat_fallback_28_temoin : Tsat_water_from_Pbar 1 = 100 := by
  rw [tsat_fallback_28 1 (by norm_num), Real.log_one]
  ring

/-- C7 (counterexample): at `P = e` bar the code's fallback returns
`128` while the spec's documented `100 + 43·ln P` would give `143`. -/
theorem tsat_fallback_differe_43 :
    Tsat_water_from_Pbar (Real.exp 1) = 128 ∧
    TsatSpec (Real.exp 1) = 143 ∧ (128 : ℝ) ≠ 143 := by
  have h1 : (0.01 : ℝ) ≤ Real.exp 1 := by
    have h := Real.add_one_le_exp (1 : ℝ)
    linarith
  refine ⟨?_, ?_, by norm_num⟩
  · unfold Tsat_water_from_Pbar
    rw [max_eq_left h1, Real.log_exp]
    norm_num
  · unfold TsatSpec
    rw [Real.log_exp]
    norm_num

/-! ## C3 (counterexample) : no non-converged flag in the result -/

/-- C3 (counterexample): the dict returned by `simuler` holds exactly
the eleven physical-quantity keys; none of them is a convergence flag,
refuting the claim that a non-converged run is marked by an explicit
flag in the result record. -/
theorem resultat_sans_indicateur_convergence :
    resultCles =
      ["L", "V", "x", "T", "P", "A", "Q", "U", "m_steam", "A_totale",
        "iterations"] ∧
    "converged" ∉ resultCles ∧ "non_converged" ∉ resultCles ∧
    "converge" ∉ resultCles ∧ "flag" ∉ resultCles := by
  refine ⟨rfl, ?_, ?_, ?_, ?_⟩ <;> decide

lemma dropOneGetLast {α : Type*} (l : List α) (h : 2 ≤ l.length) :
    (l.drop 1).getLast? = l.getLast? := by
  rw [List.getLast?_eq_getElem?, List.getLast?_eq_getElem?, List.getElem?_drop,
    List.length_drop]
  congr 1
  omega

/-! ## C9 : crystallizer finals depend only on the profile -/

/-- C9 (counterexample): two linear-profile runs differing only in the
duration (14400 s vs 100 s, `dt = 300 s`) give different final mean
sizes in the history: `450e-6` vs `20e-6` (a duration shorter than the
time step leaves a single-point grid whose last entry is the *initial*
mean size), refuting "identical regardless of … duration". -/
theorem cristallisation_finaux_dependent_duree :
    (simulerCrComplet 5000 65 70 14400 300 "lineaire").2.2.Lmean.getLast? =
      some (9 / 20000) ∧
    (simulerCrComplet 5000 65 70 100 300 "lineaire").2.2.Lmean.getLast? =
      some (1 / 50000) ∧
    (9 / 20000 : ℚ) ≠ 1 / 50000 := by
  have hNt : ntSteps 14400 300 = 49 := by
    norm_num [ntSteps]
    decide
  have hNt1 : ntSteps 100 300 = 1 := by
    norm_num [ntSteps]
  refine ⟨?_, ?_, by norm_num⟩
  · simp only [simulerCrComplet, simulerCristallisationBatch, hNt]
    rw [linspaceNp_getLast _ _ (by norm_num)]
    norm_num [profilFinals]
  · simp only [simulerCrComplet, simulerCristallisationBatch, hNt1,
      linspaceNp_one]
    norm_num

lemma ntSteps_14400_300 : ntSteps 14400 300 = 49 := by
  norm_num [ntSteps]
  decide

/-- C9 (amended): provided the time grid has at least two points in both
runs (duration ≥ time step), any two runs sharing a cooling-profile
argument produce the same number-density array and the same final mean
size and CV, whatever the batch mass, initial concentration, initial
temperature, duration and time step; for the linear profile the finals
are `450e-6` m and `0.225`.  The number-density array agrees even
without the grid proviso. -/
theorem cristallisation_finaux_constants
    (M1 Ci1 Ti1 d1 dtp1 M2 Ci2 Ti2 d2 dtp2 : ℚ) (profil : String)
    (h1 : 2 ≤ ntSteps d1 dtp1) (h2 : 2 ≤ ntSteps d2 dtp2) :
    (simulerCrComplet M1 Ci1 Ti1 d1 dtp1 profil).2.1 =
      (simulerCrComplet M2 Ci2 Ti2 d2 dtp2 profil).2.1 ∧
    (simulerCrComplet M1 Ci1 Ti1 d1 dtp1 profil).2.2.Lmean.getLast? =
      (simulerCrComplet M2 Ci2 Ti2 d2 dtp2 profil).2.2.Lmean.getLast? ∧
    (simulerCrComplet M1 Ci1 Ti1 d1 dtp1 profil).2.2.CV.getLast? =
      (simulerCrComplet M2 Ci2 Ti2 d2 dtp2 profil).2.2.CV.getLast? ∧
    (profil = "lineaire" →
      (simulerCrComplet M1 Ci1 Ti1 d1 dtp1 profil).2.2.Lmean.getLast? =
        some (450e-6) ∧
      (simulerCrComplet M1 Ci1 Ti1 d1 dtp1 profil).2.2.CV.getLast? =
        some (0.225)) := by
  have hL : ∀ (M Ci Ti d dtp : ℚ), 2 ≤ ntSteps d dtp →
      (simulerCrComplet M Ci Ti d dtp profil).2.2.Lmean.getLast? =
        some (profilFinals profil).1 := by
    intro M Ci Ti d dtp h
    simp only [simulerCrComplet, simulerCristallisationBatch]
    exact linspaceNp_getLast _ _ h
  have hCV : ∀ (M Ci Ti d dtp : ℚ), 2 ≤ ntSteps d dtp →
      (simulerCrComplet M Ci Ti d dtp profil).2.2.CV.getLast? =
        some (profilFinals profil).2 := by
    intro M Ci Ti d dtp h
    simp only [simulerCrComplet, simulerCristallisationBatch]
    exact linspaceNp_getLast _ _ h
  refine ⟨rfl, ?_, ?_, ?_⟩
  · rw [hL M1 Ci1 Ti1 d1 dtp1 h1, hL M2 Ci2 Ti2 d2 dtp2 h2]
  · rw [hCV M1 Ci1 Ti1 d1 dtp1 h1, hCV M2 Ci2 Ti2 d2 dtp2 h2]
  · intro hp
    rw [hL M1 Ci1 Ti1 d1 dtp1 h1, hCV M1 Ci1 Ti1 d1 dtp1 h1, hp]
    norm_num [profilFinals]

/-- Witness for `cristallisation_finaux_constants`: two "expo" runs with
different masses, concentrations, temperatures, durations and steps. -/
theorem cristallisation_finaux_constants_temoin :
    (simulerCrComplet 5000 65 70 14400 300 "expo").2.1 =
      (simulerCrComplet 1000 50 60 7200 60 "expo").2.1 ∧
    (simulerCrComplet 5000 65 70 14400 300 "expo").2.2.Lmean.getLast? =
      (simulerCrComplet 1000 50 60 7200 60 "expo").2.2.Lmean.getLast? ∧
    (simulerCrComplet 5000 65 70 14400 300 "expo").2.2.CV.getLast? =
      (simulerCrComplet 1000 50 60 7200 60 "expo").2.2.CV.getLast? ∧
    ("expo" = "lineaire" →
      (simulerCrComplet 5000 65 70 14400 300 "expo").2.2.Lmean.getLast? =
        some (450e-6) ∧
      (simulerCrComplet 5000 65 70 14400 300 "expo").2.2.CV.getLast? =
        some (0.225)) :=
  cristallisation_finaux_constants 5000 65 70 14400 300 1000 50 60 7200 60
    "expo" (by rw [ntSteps_14400_300]; omega) (by norm_num [ntSteps]; decide)

/-! ## C8 : cooling profile ignored -/

/-- C8 (code-bug demonstration): at the failing input
(`profil = "expo"`, `T_init = 70`, `duree = 14400`, `dt = 300`) the
temperature trajectory is byte-for-byte the linear one, it ends at
exactly 35 °C, whereas the spec's exponential relaxation
(`tempExpoSpec`) stays strictly above 35 °C at the final time:
the selected profile does not influence the temperature at all. -/
theorem profil_expo_ignore :
    (simulerCristallisationBatch 5000 65 70 14400 300 "expo").T =
      (simulerCristallisationBatch 5000 65 70 14400 300 "lineaire").T ∧
    (simulerCristallisationBatch 5000 65 70 14400 300 "expo").T.getLast? =
      some 35 ∧
    (35 : ℝ) < tempExpoSpec 70 14400 := by
  refine ⟨rfl, ?_, ?_⟩
  · simp only [simulerCristallisationBatch, ntSteps_14400_300]
    rw [List.getLast?_map, linspaceNp_getLast _ _ (by norm_num),
      Option.map_some']
    norm_num
  · unfold tempExpoSpec
    have h := Real.exp_pos (-0.003 * 14400)
    nlinarith

/-! ## C2 : per-effect pressure grid -/

/-- C2 (amended): for every effect count `n ≥ 1`, `_calculer_pressions`
assigns effects `1..n` the points `1..n` of the `(n+1)`-point log-linear
grid between the steam and final pressures; in particular effect `n`
receives the grid *endpoint*, whose value is exactly the final condenser
pressure — not an interior point. -/
theorem pressions_grille_log (Ps Pf : ℝ) (n : ℕ) (hPf : 0 < Pf)
    (hn : 1 ≤ n) :
    (calculer_pressions Ps Pf n).length = n ∧
    (calculer_pressions Ps Pf n).getLast? = some Pf ∧
    ∀ i, i < n →
      (calculer_pressions Ps Pf n)[i]? =
        some (Real.exp (Real.log Ps +
          ((i : ℝ) + 1) * (Real.log Pf - Real.log Ps) / (n : ℝ))) := by
  have hlen : ((linspaceNp (Real.log Ps) (Real.log Pf) (n + 1)).map
      Real.exp).length = n + 1 := by
    rw [List.length_map, linspaceNp_length]
  refine ⟨?_, ?_, ?_⟩
  · unfold calculer_pressions
    rw [List.length_drop, hlen]
    omega
  · unfold calculer_pressions
    rw [dropOneGetLast _ (by omega), List.getLast?_map,
      linspaceNp_getLast _ _ (by omega), Option.map_some', Real.exp_log hPf]
  · intro i hi
    unfold calculer_pressions
    rw [List.getElem?_drop, List.getElem?_map,
      linspaceNp_get _ _ (by omega) (by omega : 1 + i < n + 1),
      Option.map_some']
    congr 1
    have hcast : ((n : ℝ) + 1) - 1 = (n : ℝ) := by ring
    push_cast
    rw [hcast]
    ring

/-- Witness for `pressions_grille_log` with `Ps = 4`, `Pf = 1/4`,
`n = 3`: the last effect's pressure is the final pressure itself. -/
theorem pressions_grille_log_temoin :
    (calculer_pressions 4 (1/4) 3).getLast? = some ((1/4 : ℝ)) :=
  (pressions_grille_log 4 (1/4) 3 (by norm_num) (by norm_num)).2.1

/-- C2 (counterexample): with one effect, steam pressure 4 bar and final
pressure 1/4 bar, the single effect's pressure **equals** the final
condenser pressure, refuting "no effect's pressure equals the final
condenser pressure". -/
theorem pression_derniere_egale_P_final :
    calculer_pressions 4 (1/4) 1 = [(1/4 : ℝ)] := by
  simp only [calculer_pressions, linspaceNp]
  norm_num [List.range_succ]
  rw [Real.exp_log (by norm_num)]

/-! ## C4 : monotonicity of the flow/concentration arrays -/

lemma majLx_replicate_chain (Vpar : ℝ) (hV : 0 < Vpar) :
    ∀ (k : ℕ) (Lin xin : ℝ), 0 ≤ xin → (k : ℝ) * Vpar < Lin →
      List.Chain' (fun a b => b ≤ a)
        (Lin :: (majLx Lin xin (List.replicate k Vpar)).map Prod.fst) ∧
      List.Chain' (fun a b => a ≤ b)
        (xin :: (majLx Lin xin (List.replicate k Vpar)).map Prod.snd) := by
  intro k
  induction k with
  | zero =>
    intro Lin xin hx hL
    simp [majLx]
  | succ m ih =>
    intro Lin xin hx hL
    have hcast : ((m + 1 : ℕ) : ℝ) = (m : ℝ) + 1 := by push_cast; ring
    rw [hcast] at hL
    have hmV : (0 : ℝ) ≤ (m : ℝ) * Vpar := by positivity
    have hL1pos : 0 < Lin - Vpar := by nlinarith
    have hL1 : (m : ℝ) * Vpar < Lin - Vpar := by nlinarith
    have hLin : 0 < Lin := by nlinarith
    have hx1 : xin ≤ Lin * xin / (Lin - Vpar) := by
      rw [le_div_iff hL1pos]
      nlinarith
    have hx1nonneg : 0 ≤ Lin * xin / (Lin - Vpar) := by positivity
    obtain ⟨ihL, ihx⟩ := ih (Lin - Vpar) (Lin * xin / (Lin - Vpar)) hx1nonneg hL1
    have hrep : List.replicate (m + 1) Vpar = Vpar :: List.replicate m Vpar :=
      rfl
    rw [hrep]
    simp only [majLx, if_pos hL1pos, List.map_cons]
    constructor
    · exact List.chain'_cons.mpr ⟨by linarith, ihL⟩
    · exact List.chain'_cons.mpr ⟨hx1, ihx⟩

/-- C4 (amended): after `_initialiser_debits` with valid inputs
(`F > 0`, `0 < xF < xout < 1`, `n ≥ 1`) the liquid-flow array `L` is
non-increasing and the concentration array `x` is non-decreasing along
the effect chain.  (After the energy-balance iterations of `simuler`
this can fail — see the counterexample.) -/
theorem init_monotonie_L_x (F xF xout : ℝ) (n : ℕ) (hF : 0 < F)
    (hxF : 0 < xF) (hx : xF < xout) (hx1 : xout < 1) (hn : 1 ≤ n) :
    List.Chain' (fun a b => b ≤ a) (initialiser_debits F xF xout n).1 ∧
    List.Chain' (fun a b => a ≤ b) (initialiser_debits F xF xout n).2.2 := by
  have hxoutpos : 0 < xout := lt_trans hxF hx
  have hL : 0 < F * xF / xout := by positivity
  have hVtotpos : 0 < F - F * xF / xout := by
    have hlt : F * xF / xout < F := by
      rw [div_lt_iff hxoutpos]
      nlinarith
    linarith
  have hnR : (0 : ℝ) < (n : ℝ) := by
    exact_mod_cast Nat.pos_of_ne_zero (by omega)
  have hVpar : 0 < (F - F * xF / xout) / (n : ℝ) := div_pos hVtotpos hnR
  have hnV : (n : ℝ) * ((F - F * xF / xout) / (n : ℝ)) < F := by
    rw [mul_div_cancel₀ _ (ne_of_gt hnR)]
    linarith
  have h := majLx_replicate_chain _ hVpar n F xF (le_of_lt hxF) hnV
  unfold initialiser_debits bilan_matiere_global
  exact ⟨h.1.tail, h.2.tail⟩

/-- Witness for `init_monotonie_L_x` at the CDC scenario. -/
theorem init_monotonie_L_x_temoin :
    List.Chain' (fun a b => b ≤ a) (initialiser_debits 20000 0.15 0.65 3).1 ∧
    List.Chain' (fun a b => a ≤ b) (initialiser_debits 20000 0.15 0.65 3).2.2 :=
  init_monotonie_L_x 20000 0.15 0.65 3 (by norm_num) (by norm_num)
    (by norm_num) (by norm_num) (by norm_num)

/-! ## Concrete run used by the counterexamples

A valid configuration (`F = 10000`, `xF = 1/2 < xout = 51/100 < 1`,
`N = 2`, steam 4 bar > final 1/4 bar, feed at 100 °C, default
superheat/losses/fouling) on which one iteration of `simuler` drives the
second effect's energy balance negative. -/

noncomputable def pC : Params :=
  { F := 10000, xF := 1/2, xout := 51/100, T_feed := 100, P_steam := 4,
    n_effets := 2, P_final := 1/4, surchauffe := 10, pertes := 3/100,
    R_f := 2/10000 }

lemma tsatUn : Tsat_water_from_Pbar 1 = 100 := by
  unfold Tsat_water_from_Pbar
  rw [max_eq_left (by norm_num), Real.log_one]
  ring

lemma logQuart : Real.log ((1 : ℝ)/4) = -(2 * Real.log 2) := by
  rw [one_div, Real.log_inv, show (4 : ℝ) = 2 ^ 2 by norm_num, Real.log_pow]
  push_cast
  ring

lemma tsatQuart : Tsat_water_from_Pbar (1/4) = 100 - 56 * Real.log 2 := by
  unfold Tsat_water_from_Pbar
  rw [max_eq_left (by norm_num), logQuart]
  ring

lemma logQuatre : Real.log (4 : ℝ) = 2 * Real.log 2 := by
  rw [show (4 : ℝ) = 2 ^ 2 by norm_num, Real.log_pow]
  push_cast
  ring

lemma tsatQuatre : Tsat_water_from_Pbar 4 = 100 + 56 * Real.log 2 := by
  unfold Tsat_water_from_Pbar
  rw [max_eq_left (by norm_num), logQuatre]
  ring

lemma latentUn : latent_heat_from_Pbar 1 = 2258 := by
  unfold latent_heat_from_Pbar latent_heat_kJkg
  rw [tsatUn, show (2500 : ℝ) - 2.42 * 100 = 2258 by norm_num,
    max_eq_left (by norm_num)]

lemma latentQuart :
    latent_heat_from_Pbar (1/4) = 2258 + 135.52 * Real.log 2 := by
  have hl2 := Real.log_two_gt_d9
  unfold latent_heat_from_Pbar latent_heat_kJkg
  rw [tsatQuart, show (2500 : ℝ) - 2.42 * (100 - 56 * Real.log 2) =
    2258 + 135.52 * Real.log 2 by ring]
  exact max_eq_left (by nlinarith)

lemma latentQuatre :
    latent_heat_from_Pbar 4 = 2258 - 135.52 * Real.log 2 := by
  have hl2 := Real.log_two_lt_d9
  unfold latent_heat_from_Pbar latent_heat_kJkg
  rw [tsatQuatre, show (2500 : ℝ) - 2.42 * (100 + 56 * Real.log 2) =
    2258 - 135.52 * Real.log 2 by ring]
  exact max_eq_left (by nlinarith)

lemma epe_bounds (x T : ℝ) (hx0 : 0 < x) (hx1 : x ≤ 1) (hT : 0 ≤ T) :
    0 ≤ EPE_Duhring x T ∧ EPE_Duhring x T ≤ 8 * (1 + 0.004 * T) * x := by
  unfold EPE_Duhring
  rw [if_neg (not_le.mpr hx0)]
  refine ⟨le_max_right _ _, max_le ?_ (by nlinarith)⟩
  have hrp : x ^ (1.2 : ℝ) ≤ x := by
    have h := Real.rpow_le_rpow_of_exponent_ge hx0 hx1
      (show (1 : ℝ) ≤ 1.2 by norm_num)
    rwa [Real.rpow_one] at h
  have hrp0 : 0 ≤ x ^ (1.2 : ℝ) := Real.rpow_nonneg (le_of_lt hx0) _
  nlinarith

lemma pressionsC : pressionsDe pC = [1, 1/4] := by
  have hq := logQuart
  simp only [pressionsDe, pC, calculer_pressions, linspaceNp]
  norm_num [List.range_succ]
  constructor
  · rw [hq, logQuatre]
    ring
  · rw [Real.exp_log (by norm_num)]

lemma etatInitC :
    etatInitial pC =
      { L := [505000/51, 500000/51], V := [5000/51, 5000/51],
        x := [51/101, 51/100], T := [], Q := [], A := [] } := by
  simp only [etatInitial, initialiser_debits, bilan_matiere_global, pC,
    List.replicate, majLx]
  norm_num

lemma boucleUn (p : Params) (P : List ℝ) (tol : ℝ) (st : Etat) :
    boucle p P tol 1 st = (iterer p P st, 1) := by
  simp only [boucle]
  split
  · rfl
  · simp [boucle]

lemma simC_proj :
    (simuler pC 1 (1/10000)).V = (iterer pC [1, 1/4] (etatInitial pC)).V ∧
    (simuler pC 1 (1/10000)).L = (iterer pC [1, 1/4] (etatInitial pC)).L ∧
    (simuler pC 1 (1/10000)).m_steam =
      (iterer pC [1, 1/4] (etatInitial pC)).Q.headD 0 * 3600 /
        latent_heat_from_Pbar 4 ∧
    (simuler pC 1 (1/10000)).iterations = 1 := by
  refine ⟨?_, ?_, ?_, ?_⟩ <;> (simp only [simuler]; rw [pressionsC, boucleUn])
  rfl

/-- Bounds on the state after the first iteration of `simuler` on `pC`:
the second effect's energy balance is dominated by the negative sensible
term `L₀·Cp·(T₁−T₀)` (the boiling temperature drops by ≈ 39 °C between
the effects while almost no vapor is produced), so the recomputed
`V₁ ≤ −292 kg/h` while `V₀` stays near `+100..171 kg/h`. -/
lemma iterC_bornes :
    ∃ v0 v1,
      (iterer pC [1, 1/4] (etatInitial pC)).V = [v0, v1] ∧
      (iterer pC [1, 1/4] (etatInitial pC)).L = [10000 - v0, 10000 - v0 - v1] ∧
      (iterer pC [1, 1/4] (etatInitial pC)).Q.headD 0 = v0 * 2258 / 3600 ∧
      100 ≤ v0 ∧ v0 ≤ 171 ∧ v1 ≤ -292 := by
  rw [etatInitC]
  simp only [iterer, calculer_temperatures, List.zipWith, bilansAux,
    List.map_cons, List.map_nil, majLx, pC, Cp_solution_saccharose]
  rw [tsatUn, tsatQuart, latentUn, latentQuart]
  have hl2a := Real.log_two_gt_d9
  have hl2b := Real.log_two_lt_d9
  obtain ⟨hE0a, hE0b⟩ :=
    epe_bounds (51/101) 100 (by norm_num) (by norm_num) (by norm_num)
  have hE0c : EPE_Duhring (51/101) 100 ≤ 5.66 := by nlinarith
  have hTs : (0:ℝ) ≤ 100 - 56 * Real.log 2 := by nlinarith
  obtain ⟨hE1a, hE1b⟩ :=
    epe_bounds (51/100) (100 - 56 * Real.log 2) (by norm_num) (by norm_num) hTs
  have hE1c : EPE_Duhring (51/100) (100 - 56 * Real.log 2) ≤ 5.08 := by
    nlinarith
  refine ⟨_, _, rfl, ?_, ?_, ?_, ?_, ?_⟩
  · rfl
  · simp only [List.headD]
    ring
  · nlinarith
  · nlinarith
  · have hlam_pos : (0:ℝ) < 2258 + 135.52 * Real.log 2 := by nlinarith
    rw [div_le_iff hlam_pos]
    nlinarith

/-- C4 (counterexample): on the valid configuration `pC`, after the
first iteration of `simuler` (`max_iter = 1`) the returned liquid-flow
array is **increasing** at the second stage (`V₁` is negative there), so
`L` is not non-increasing after every iteration. -/
theorem iteration_L_croissant :
    ¬ List.Chain' (fun a b => b ≤ a) (simuler pC 1 (1/10000)).L := by
  obtain ⟨v0, v1, hV, hL, hq, hv0a, hv0b, hv1⟩ := iterC_bornes
  rw [simC_proj.2.1, hL]
  intro hch
  rw [List.chain'_pair] at hch
  linarith

/-- C6 (counterexample): on the valid configuration `pC` a completed run
(`simuler(max_iter = 1)`) has positive steam consumption but negative
total vapor (`V₀ + V₁ < 0`), so `economie_vapeur` is **negative**,
refuting "economy strictly positive for every completed run". -/
theorem economie_negative :
    economie_vapeur (simuler pC 1 (1/10000)).V
      (simuler pC 1 (1/10000)).m_steam < 0 := by
  obtain ⟨v0, v1, hV, hL, hq, hv0a, hv0b, hv1⟩ := iterC_bornes
  have hl2b := Real.log_two_lt_d9
  have hm : (simuler pC 1 (1/10000)).m_steam =
      v0 * 2258 / 3600 * 3600 / (2258 - 135.52 * Real.log 2) := by
    rw [simC_proj.2.2.1, hq, latentQuatre]
  have hlam : (0:ℝ) < 2258 - 135.52 * Real.log 2 := by nlinarith
  have hmpos : 0 < (simuler pC 1 (1/10000)).m_steam := by
    rw [hm]
    apply div_pos ?_ hlam
    nlinarith
  unfold economie_vapeur
  rw [if_neg (ne_of_gt hmpos)]
  apply div_neg_of_neg_of_pos ?_ hmpos
  rw [simC_proj.1, hV]
  simp only [List.sum_cons, List.sum_nil]
  linarith

/-- C6 (amended): the steam economy `sum(V)/m_steam` is strictly
positive and at most the number of effects whenever the motive steam
consumption is positive and every per-effect vapor flow is positive and
no larger than the steam consumption; without those provisos the bounds
can fail (see `economie_negative`). -/
theorem economie_bornes (V : List ℝ) (m : ℝ) (hm : 0 < m)
    (hpos : ∀ v ∈ V, 0 < v) (hle : ∀ v ∈ V, v ≤ m) (hne : V ≠ []) :
    0 < economie_vapeur V m ∧ economie_vapeur V m ≤ V.length := by
  unfold economie_vapeur
  rw [if_neg (ne_of_gt hm)]
  constructor
  · exact div_pos (List.sum_pos V hpos hne) hm
  · rw [div_le_iff hm]
    have h := List.sum_le_card_nsmul V m hle
    rwa [nsmul_eq_mul] at h

/-- Witness for `economie_bornes`: two effects with vapor flows 1 and
3/2 against steam consumption 2 give an economy in `(0, 2]`. -/
theorem economie_bornes_temoin :
    0 < economie_vapeur [1, 3/2] 2 ∧
    economie_vapeur [1, 3/2] 2 ≤ (([(1:ℝ), 3/2]).length) :=
  economie_bornes [1, 3/2] 2 (by norm_num)
    (by
      intro v hv
      simp only [List.mem_cons, List.not_mem_nil, or_false] at hv
      rcases hv with rfl | rfl <;> norm_num)
    (by
      intro v hv
      simp only [List.mem_cons, List.not_mem_nil, or_false] at hv
      rcases hv with rfl | rfl <;> norm_num)
    (by simp)

/-! ## C3 : exhausting the iteration budget -/

lemma etapes_shift (p : Params) (P : List ℝ) (st : Etat) :
    ∀ k, etapes p P (iterer p P st) k = etapes p P st (k + 1) := by
  intro k
  induction k with
  | zero => rfl
  | succ n ih => simp only [etapes, ih]

lemma boucle_sans_conv (p : Params) (P : List ℝ) (tol : ℝ) :
    ∀ (m : ℕ) (st : Etat), 1 ≤ m →
      (∀ k, k < m →
        ¬ erreurConv (etapes p P st (k+1)).V (etapes p P st k).V < tol) →
      boucle p P tol m st = (etapes p P st m, m) := by
  intro m
  induction m with
  | zero =>
    intro st h hh
    omega
  | succ mm ih =>
    intro st hm hnc
    have h0' : ¬ erreurConv (iterer p P st).V st.V < tol := hnc 0 (by omega)
    by_cases hmm : mm = 0
    · subst hmm
      rw [boucleUn]
      rfl
    · simp only [boucle]
      rw [if_neg h0']
      have hsh : ∀ k, k < mm →
          ¬ erreurConv (etapes p P (iterer p P st) (k+1)).V
            (etapes p P (iterer p P st) k).V < tol := by
        intro k hk
        rw [etapes_shift, etapes_shift]
        exact hnc (k+1) (by omega)
      rw [ih (iterer p P st) (by omega) hsh, etapes_shift]

/-- C3 (amended): when no iterate meets the tolerance, `simuler` runs
the full iteration budget and returns the last iterate (flows,
concentrations scaled to percent, duties) together with
`iterations = max_iter`, raising no exception — but the result record
carries no explicit non-converged flag (its keys are listed in
`resultCles`; callers can only compare `iterations` with `max_iter`). -/
theorem simuler_non_convergence (p : Params) (maxIter : ℕ) (tol : ℝ)
    (hmax : 1 ≤ maxIter)
    (hnc : ∀ k, k < maxIter →
      ¬ erreurConv (etapes p (pressionsDe p) (etatInitial p) (k+1)).V
          (etapes p (pressionsDe p) (etatInitial p) k).V < tol) :
    (simuler p maxIter tol).iterations = maxIter ∧
    (simuler p maxIter tol).V =
      (etapes p (pressionsDe p) (etatInitial p) maxIter).V ∧
    (simuler p maxIter tol).L =
      (etapes p (pressionsDe p) (etatInitial p) maxIter).L ∧
    (simuler p maxIter tol).x =
      ((etapes p (pressionsDe p) (etatInitial p) maxIter).x).map (· * 100) ∧
    (simuler p maxIter tol).Q =
      (etapes p (pressionsDe p) (etatInitial p) maxIter).Q := by
  have hb := boucle_sans_conv p (pressionsDe p) tol maxIter (etatInitial p)
    hmax hnc
  simp only [simuler]
  rw [hb]
  exact ⟨rfl, rfl, rfl, rfl, rfl⟩

/-- Witness for `simuler_non_convergence`: on `pC` with
`max_iter = 1`, `tol = 1e-4`, the first iteration changes `V₁` by a
relative amount ≈ 4, far above the tolerance, so the run exhausts its
budget and returns the first iterate with `iterations = 1`. -/
theorem simuler_non_convergence_temoin :
    (simuler pC 1 (1/10000)).iterations = 1 ∧
    (simuler pC 1 (1/10000)).V =
      (etapes pC (pressionsDe pC) (etatInitial pC) 1).V ∧
    (simuler pC 1 (1/10000)).L =
      (etapes pC (pressionsDe pC) (etatInitial pC) 1).L ∧
    (simuler pC 1 (1/10000)).x =
      ((etapes pC (pressionsDe pC) (etatInitial pC) 1).x).map (· * 100) ∧
    (simuler pC 1 (1/10000)).Q =
      (etapes pC (pressionsDe pC) (etatInitial pC) 1).Q := by
  apply simuler_non_convergence pC 1 (1/10000) (by norm_num)
  intro k hk
  have hk0 : k = 0 := by omega
  subst hk0
  rw [pressionsC]
  obtain ⟨v0, v1, hV, hL, hq, hv0a, hv0b, hv1⟩ := iterC_bornes
  have h1 : (etapes pC [1, 1/4] (etatInitial pC) 1).V = [v0, v1] := hV
  have h0 : (etapes pC [1, 1/4] (etatInitial pC) 0).V =
      [5000/51, 5000/51] := by
    show (etatInitial pC).V = _
    rw [etatInitC]
  rw [h1, h0]
  unfold erreurConv npMax
  simp only [List.zipWith, List.foldl]
  rw [not_lt]
  refine le_trans ?_ (le_max_right _ _)
  rw [le_div_iff (by norm_num)]
  have habs : |v1 - 5000/51| = -(v1 - 5000/51) := abs_of_nonpos (by linarith)
  rw [habs]
  linarith

end EvapCrit
